import Mathlib

/-!
Shallow embedding of `query/command/command.go` of the metrics query engine
(package `command`): the `SelectCommand.Execute` pipeline (range snapping,
lookback widening, resolution negotiation, slot-limit check, the
evaluation/timeout race and result assembly) and `ProfilingCommand.Execute`.

Times are modelled as integers: milliseconds for timerange endpoints and
resolutions, nanoseconds for `time.Duration` values (`Duration()`,
`ChooseResolution`'s result, `Timeout`).  Go's `int64` division truncates
toward zero, which is `Int.tdiv`.

External collaborators that are not part of the source file (the `api`
timerange constructors, the `function` package's widening/description modes,
the `natural_sort` utility, the storage backend) are modelled from the spec,
each marked `Modelled from the spec:` in its doc comment.  Run-time
nondeterminism (the storage backend's choice, the evaluation outcome and the
winner of the select race) is supplied by explicit parameters.
-/

namespace Metrics

/-- Errors produced by the command layer, following the spec's taxonomy
(§7): invalid range, limit (slot count or timeout, carrying the offending
value and the limit), backend failure, type mismatch, and arbitrary
evaluation errors. -/
inductive QError where
  | invalidRange : String → QError
  | limit : String → Int → Int → QError
  | backend : String → QError
  | typeMismatch : String → QError
  | evalError : String → QError
deriving DecidableEq, Repr

/-- `api.Timerange`: start, end and resolution in milliseconds. -/
structure Timerange where
  start : Int
  end_ : Int
  resolution : Int
deriving DecidableEq, Repr

/-- `Timerange.Slots()`: `int((end-start)/resolution) + 1` with Go (truncated)
integer division. -/
def Timerange.Slots (tr : Timerange) : Int :=
  Int.tdiv (tr.end_ - tr.start) tr.resolution + 1

/-- `Timerange.Duration()`: `(end - start)` milliseconds as a `time.Duration`
(nanoseconds). -/
def Timerange.Duration (tr : Timerange) : Int :=
  (tr.end_ - tr.start) * 1000000

/-- Modelled from the spec: `api.NewSnappedTimerange` (the TimeRangeSnapper,
§4.1), whose source is outside this file.  "Snapping aligns end to the grid
implied by resolution from start; if the implied slot count or resolution is
non-positive, fails with InvalidRangeError" — so a non-positive resolution or
an end before the start is rejected, and otherwise the end is aligned onto
the slot grid anchored at the start. -/
def newSnappedTimerange (s e res : Int) : Except QError Timerange :=
  if res ≤ 0 then .error (.invalidRange "non-positive resolution")
  else if e < s then .error (.invalidRange "start after end")
  else .ok ⟨s, s + Int.tdiv (e - s) res * res, res⟩

/-- Go integer division, which panics on a zero divisor (`none` models the
runtime panic). -/
def goIntDiv (a b : Int) : Option Int :=
  if b = 0 then none else some (Int.tdiv a b)

/-- A series of `api.Timeseries`: only its tag set matters to the command
layer (the float sample values are opaque here). -/
structure Series where
  tags : List (String × String)
deriving DecidableEq, Repr

/-- `api.SeriesList`. -/
structure SeriesList where
  series : List Series
deriving DecidableEq, Repr

/-- `function.TaggedScalar`: the float value is opaque to the command layer,
only the tag set is carried. -/
structure TaggedScalar where
  tags : List (String × String)
deriving DecidableEq, Repr

/-- Modelled from the spec: a `function.Value` supports "interpret as
series-list" and "interpret as scalar-set" conversions, either of which may
fail (§6).  `toSeriesList` models both the `ToSeriesList` conversion
(line 311) and the `SeriesListValue` assertion (line 338). -/
structure Value where
  toSeriesList : Option SeriesList
  toScalarSet : Option (List TaggedScalar)
deriving DecidableEq, Repr

/-- Modelled from the spec: a `function.Expression` exposes a description
capability with query-text mode, display-name mode and a widening mode that
may request an earlier effective start given the current start and
resolution (§4.2, §6). -/
structure Expression where
  queryText : String
  displayName : String
  widenRequest : Int → Int → Int

/-- `SelectContext`: the user-requested start, end and resolution
(milliseconds); the sample method is opaque to the claims. -/
structure SelectContext where
  Start : Int
  End : Int
  Resolution : Int
deriving DecidableEq, Repr

/-- `SelectCommand`. -/
structure SelectCommand where
  Expressions : List Expression
  Context : SelectContext

/-- `ExecutionContext`, restricted to the fields the `Execute` paths under
verification read: the storage backend's `ChooseResolution` (a function, as
the backend is an interface), the timeout (`time.Duration`, nanoseconds) and
the slot limit. -/
structure ExecutionContext where
  chooseResolution : Timerange → Int → Except QError Int
  Timeout : Int
  SlotLimit : Int

/-- The run-time nondeterminism of one evaluation: whether the select at
line 303 takes the `ctx.Done()` branch before a completion arrives, what
`function.EvaluateMany` eventually produces, and the notes the evaluation
accumulated. -/
structure EvalBehavior where
  ctxDoneFirst : Bool
  evalOutcome : Except QError (List Value)
  notes : List String

/-- Metadata values attached to a `Result`. -/
inductive MetaValue where
  | description : List (String × List String) → MetaValue
  | notes : List String → MetaValue
  | resolution : Int → MetaValue
  | profile : List String → MetaValue
deriving DecidableEq, Repr

/-- One entry of the Select result body (`QueryResult`): either a series
result (query text, name, series, timerange) or a scalars result. -/
inductive QueryResult where
  | series : String → String → List Series → Timerange → QueryResult
  | scalars : String → String → List TaggedScalar → QueryResult
deriving DecidableEq, Repr

/-- `Result`: body and metadata.  Go's metadata map is modelled as an
association list in insertion order. -/
structure ResultR where
  body : List QueryResult
  metadata : List (String × MetaValue)
deriving DecidableEq, Repr

/-- The zero `Result{}` returned on failure paths. -/
def ResultR.empty : ResultR := ⟨[], []⟩

/-- The outcome of one `Execute` call: a runtime panic, an error, or a
result. -/
inductive ExecOutcome where
  | panic : String → ExecOutcome
  | error : QError → ExecOutcome
  | ok : ResultR → ExecOutcome
deriving DecidableEq, Repr

/-- Lines 203-207: `slotLimit := context.SlotLimit; if slotLimit == 0 {
slotLimit = 1000 }`. -/
def effectiveSlotLimit (slotLimit : Int) : Int :=
  if slotLimit = 0 then 1000 else slotLimit

/-- Modelled from the spec: the widening pass (lines 217-232).  The
`function.WidestMode` machinery is outside this file; per §4.2/§9 the
shared `earliest` cell starts at the user's start and each expression's
description call may lower it via compare-and-lower, so the pass folds
`min` of each expression's request over the expression list. -/
def wideningEarliest (start resolution : Int) (exprs : List Expression) : Int :=
  exprs.foldl (fun earliest e => min earliest (e.widenRequest start resolution)) start

/-- Lines 234-240: use the widened snap when it succeeded; if the timerange
is invalid, just fall back on the user's. -/
def widenedOrFallback (user : Timerange) (snapped : Except QError Timerange) : Timerange :=
  match snapped with
  | .error _ => user
  | .ok w => w

/-- Modelled from the spec: the natural-order comparison used by
`natural_sort.Sort` (assumed as a utility, §1).  Realized through the
standard string ordering, with which natural order agrees on digit-free
strings such as the tag values in the spec's examples. -/
def naturalLe (a b : String) : Bool :=
  compare a b ≠ Ordering.gt

/-- Insert into a list sorted by `naturalLe`. -/
def insertSorted (x : String) : List String → List String
  | [] => [x]
  | y :: ys => if naturalLe x y then x :: y :: ys else y :: insertSorted x ys

/-- Modelled from the spec: `natural_sort.Sort`, as an insertion sort by the
natural order. -/
def naturalSort (l : List String) : List String :=
  l.foldr insertSorted []

/-- Lines 324-330: keep `values[i]` when `i == 0 || values[i-1] != values[i]`
(adjacent deduplication; `prev` is always the previous element of the input
list). -/
def dedupAdjacentFrom (prev : String) : List String → List String
  | [] => []
  | x :: xs =>
    if prev ≠ x then x :: dedupAdjacentFrom x xs
    else dedupAdjacentFrom x xs

/-- Lines 322-331 applied to one key's value list. -/
def dedupAdjacent : List String → List String
  | [] => []
  | x :: xs => x :: dedupAdjacentFrom x xs

/-- `description[key] = append(description[key], value)` (line 318) on the
association-list model of the Go map: append to the key's entry, creating it
at the end when absent. -/
def descAppend (m : List (String × List String)) (k v : String) :
    List (String × List String) :=
  match m with
  | [] => [(k, [v])]
  | (k', vs) :: rest =>
    if k' = k then (k', vs ++ [v]) :: rest
    else (k', vs) :: descAppend rest k v

/-- Look a key up in the description map, with the Go zero value `[]` for an
absent key. -/
def descLookup (k : String) : List (String × List String) → List String
  | [] => []
  | (k', vs) :: rest => if k' = k then vs else descLookup k rest

/-- The tag pairs a value contributes to the description map: nothing when
`ToSeriesList` fails (the `continue` at line 313), else every series' tag
pairs in order. -/
def tagsOfValue (v : Value) : List (String × String) :=
  match v.toSeriesList with
  | none => []
  | some list => list.series.flatMap (·.tags)

/-- Lines 309-321: collect every tag value under its key, across all
series of all series-list-interpretable results. -/
def collectDescription (values : List Value) : List (String × List String) :=
  values.foldl (fun m v => (tagsOfValue v).foldl (fun m p => descAppend m p.1 p.2) m) []

/-- Lines 322-331: naturally sort each key's collection and remove adjacent
duplicates. -/
def finalDescription (values : List Value) : List (String × List String) :=
  (collectDescription values).map (fun e => (e.1, dedupAdjacent (naturalSort e.2)))

/-- The specification-side description of one key's collection: the union
(in order of appearance) of that key's values over all series of all
series-list results (§4.5). -/
def collectKey (values : List Value) (k : String) : List String :=
  (values.flatMap tagsOfValue).filterMap
    (fun p => if p.1 = k then some p.2 else none)

/-- Line 357 passes the uncalled mode constructor `function.StringQuery`
(without the `()` that lines 340 and 350 use) as the `%s` operand, so the
formatted operand is a function value rather than the expression's query
text; Go's fmt renders such an operand as a verb-error placeholder. -/
def stringQueryFuncRendering : String :=
  "%!s(func() function.DescriptionMode)"

/-- The message of the line-357 error: `fmt.Errorf("query %s does not result
in a timeseries or scalar.", ...)` with the function value as operand. -/
def typeMismatchMessage : String :=
  "query " ++ stringQueryFuncRendering ++ " does not result in a timeseries or scalar."

/-- Lines 336-358: build the body, one `QueryResult` per (expression, value)
pair; a value that is neither a series list nor a scalar set fails the whole
Select. -/
def assembleBody (chosenTimerange : Timerange) :
    List (Expression × Value) → Except QError (List QueryResult)
  | [] => .ok []
  | (e, v) :: rest =>
    match v.toSeriesList with
    | some list =>
      (assembleBody chosenTimerange rest).map
        (QueryResult.series e.queryText e.displayName list.series chosenTimerange :: ·)
    | none =>
      match v.toScalarSet with
      | some scalars =>
        (assembleBody chosenTimerange rest).map
          (QueryResult.scalars e.queryText e.displayName scalars :: ·)
      | none => .error (.typeMismatch typeMismatchMessage)

/-- Lines 308-367: the result-assembly stage, producing the body and the
metadata (description, notes, chosen resolution). -/
def assembleResult (cmd : SelectCommand) (chosenTimerange : Timerange)
    (chosenResolution : Int) (notes : List String) (result : List Value) : ExecOutcome :=
  match assembleBody chosenTimerange (cmd.Expressions.zip result) with
  | .error e => .error e
  | .ok body =>
    .ok { body := body
          metadata :=
            [("description", MetaValue.description (finalDescription result)),
             ("notes", MetaValue.notes notes),
             ("resolution", MetaValue.resolution chosenResolution)] }

/-- `SelectCommand.Execute` (lines 198-369).  The storage backend's choice,
the evaluation outcome and the select-race winner come from `context` and
`run`; everything else follows the source line by line: snap the user range,
default the slot limit, compute `smallestResolution` by Go division (a
runtime panic when `slotLimit == 2`), run the widening pass with fallback,
ask the backend for a resolution, re-snap the user's endpoints at the chosen
resolution, enforce the slot limit, race evaluation against `ctx.Done()`,
and assemble the result. -/
def executeSelect (cmd : SelectCommand) (context : ExecutionContext)
    (run : EvalBehavior) : ExecOutcome :=
  match newSnappedTimerange cmd.Context.Start cmd.Context.End cmd.Context.Resolution with
  | .error e => .error e
  | .ok userTimerange =>
    let slotLimit := effectiveSlotLimit context.SlotLimit
    match goIntDiv userTimerange.Duration (slotLimit - 2) with
    | none => .panic "runtime error: integer divide by zero"
    | some smallestResolution =>
      let earliest := wideningEarliest userTimerange.start userTimerange.resolution cmd.Expressions
      let widenedTimerange :=
        widenedOrFallback userTimerange
          (newSnappedTimerange earliest userTimerange.end_ userTimerange.resolution)
      match context.chooseResolution widenedTimerange smallestResolution with
      | .error e => .error e
      | .ok chosenResolution =>
        match newSnappedTimerange userTimerange.start userTimerange.end_
            (Int.tdiv chosenResolution 1000000) with
        | .error e => .error e
        | .ok chosenTimerange =>
          if chosenTimerange.Slots > slotLimit then
            .error (.limit "Requested number of data points exceeds the configured limit"
              chosenTimerange.Slots slotLimit)
          else if run.ctxDoneFirst then
            .error (.limit "Timeout while executing the query." context.Timeout context.Timeout)
          else
            match run.evalOutcome with
            | .error e => .error e
            | .ok result => assembleResult cmd chosenTimerange chosenResolution run.notes result

/-- Line 291: `results := make(chan []function.Value, 1)`. -/
def resultsChannelCapacity : Nat := 1

/-- Line 292: `errors := make(chan error, 1)`. -/
def errorsChannelCapacity : Nat := 1

/-- A send on a Go buffered channel completes without blocking exactly when
the buffer has spare capacity, receiver or not: `pending` counts the sends
already buffered. -/
def sendCompletesWithoutBlocking (capacity pending : Nat) : Bool :=
  pending < capacity

/-- Look a key up in result metadata. -/
def metaLookup (k : String) : List (String × MetaValue) → Option MetaValue
  | [] => none
  | (k', v) :: rest => if k' = k then some v else metaLookup k rest

/-- Go map assignment `result.Metadata["profile"] = profiles` on the
association-list model. -/
def metaInsert (m : List (String × MetaValue)) (k : String) (v : MetaValue) :
    List (String × MetaValue) :=
  match m with
  | [] => [(k, v)]
  | (k', v') :: rest =>
    if k' = k then (k, v) :: rest else (k', v') :: metaInsert rest k v

/-- `ProfilingCommand.Execute` (lines 392-407), with the wrapped command's
outcome and the profiler's recorded spans (`cmd.Profiler.All()`, line 399)
abstracted as inputs.  Go's `(Result, error)` pair is kept as a pair: on a
wrapped-command error the zero `Result{}` is returned with that error;
otherwise, when any spans were recorded, they are merged into the result's
metadata under the fixed key `"profile"`. -/
def profilingExecute (inner : ResultR × Option QError) (profiles : List String) :
    ResultR × Option QError :=
  match inner.2 with
  | some err => (ResultR.empty, some err)
  | none =>
    let result := inner.1
    if profiles.length ≠ 0 then
      ({ result with metadata := metaInsert result.metadata "profile" (MetaValue.profile profiles) },
       none)
    else (result, none)

/-! Helper lemmas. -/

theorem foldl_min_le (start resolution : Int) (exprs : List Expression) :
    ∀ acc : Int, exprs.foldl (fun earliest e => min earliest (e.widenRequest start resolution)) acc ≤ acc := by
  induction exprs with
  | nil => intro acc; simp
  | cons e rest ih =>
    intro acc
    calc rest.foldl _ (min acc (e.widenRequest start resolution))
        ≤ min acc (e.widenRequest start resolution) := ih _
      _ ≤ acc := min_le_left _ _

theorem newSnappedTimerange_idem (s e r : Int) (user : Timerange)
    (h : newSnappedTimerange s e r = .ok user) :
    newSnappedTimerange user.start user.end_ user.resolution = .ok user := by
  unfold newSnappedTimerange at h ⊢
  split at h
  · cases h
  next hr =>
    split at h
    · cases h
    next he =>
      cases h
      push_neg at hr he
      have hd : 0 ≤ Int.tdiv (e - s) r := Int.tdiv_nonneg (by omega) (by omega)
      have hrne : r ≠ 0 := by omega
      simp only
      rw [if_neg (by omega), if_neg (by nlinarith [mul_nonneg hd (le_of_lt hr)]),
        add_sub_cancel_left, Int.mul_tdiv_cancel _ hrne]

theorem descLookup_descAppend (k k' v : String) (m : List (String × List String)) :
    descLookup k (descAppend m k' v) =
      if k' = k then descLookup k m ++ [v] else descLookup k m := by
  induction m with
  | nil =>
    by_cases h : k' = k <;> simp [descAppend, descLookup, h]
  | cons hd rest ih =>
    obtain ⟨k₀, vs⟩ := hd
    simp only [descAppend]
    by_cases h01 : k₀ = k'
    · subst h01
      by_cases h0k : k₀ = k <;> simp [descLookup, h0k]
    · rw [if_neg h01]
      by_cases h0k : k₀ = k
      · subst h0k
        have h1 : ¬ k' = k₀ := fun h => h01 h.symm
        simp [descLookup, h1]
      · simp [descLookup, h0k, ih]

theorem descLookup_foldl_pairs (k : String) (pairs : List (String × String)) :
    ∀ m : List (String × List String),
      descLookup k (pairs.foldl (fun m p => descAppend m p.1 p.2) m) =
        descLookup k m ++ pairs.filterMap (fun p => if p.1 = k then some p.2 else none) := by
  induction pairs with
  | nil => intro m; simp
  | cons p rest ih =>
    intro m
    obtain ⟨pk, pv⟩ := p
    by_cases h : pk = k <;>
      simp [List.foldl_cons, ih, descLookup_descAppend, h, List.filterMap_cons]

theorem descLookup_collect_aux (k : String) (values : List Value) :
    ∀ m : List (String × List String),
      descLookup k (values.foldl (fun m v => (tagsOfValue v).foldl (fun m p => descAppend m p.1 p.2) m) m) =
        descLookup k m ++ collectKey values k := by
  induction values with
  | nil => intro m; simp [collectKey]
  | cons v rest ih =>
    intro m
    simp only [List.foldl_cons, ih, descLookup_foldl_pairs, collectKey,
      List.flatMap_cons, List.filterMap_append, List.append_assoc]

theorem descLookup_collectDescription (k : String) (values : List Value) :
    descLookup k (collectDescription values) = collectKey values k := by
  have h := descLookup_collect_aux k values []
  simpa [collectDescription, descLookup] using h

theorem descLookup_map_dedup (k : String) (m : List (String × List String)) :
    descLookup k (m.map (fun e => (e.1, dedupAdjacent (naturalSort e.2)))) =
      dedupAdjacent (naturalSort (descLookup k m)) := by
  induction m with
  | nil => simp [descLookup, naturalSort, dedupAdjacent]
  | cons hd rest ih =>
    obtain ⟨k₀, vs⟩ := hd
    by_cases h : k₀ = k <;> simp [descLookup, h, ih]

/-! Concrete fixtures (spec §8 scenarios: a Select over `[0ms, 9000ms]` at
1000ms resolution, a backend that picks a fixed resolution, an evaluation
that completes or a race won by the timeout). -/

/-- A Select over `[0, 9000]` ms at 1000ms resolution with no expressions. -/
def cmdScenario : SelectCommand := ⟨[], ⟨0, 9000, 1000⟩⟩

/-- An execution context with the given slot limit, no timeout, and a
backend that always chooses a 1000ms resolution. -/
def ctxWithLimit (n : Int) : ExecutionContext :=
  ⟨fun _ _ => .ok 1000000000, 0, n⟩

/-- An evaluation that completes (with no values) before any cancellation. -/
def runNoTimeout : EvalBehavior := ⟨false, .ok [], []⟩

/-! Claim theorems. -/

/-- C3: in `SelectCommand.Execute`, if constructing the widened range fails
to snap validly, the execution falls back to the user's original range
unchanged; and the widening stage is total — for every snap outcome it
yields either the successfully snapped range or the user's range, never an
error — so a widening failure cannot fail the query. -/
theorem widening_failure_falls_back :
    (∀ (user : Timerange) (e : QError),
       widenedOrFallback user (Except.error e) = user) ∧
    (∀ (user : Timerange) (s : Except QError Timerange),
       widenedOrFallback user s = user ∨ s = .ok (widenedOrFallback user s)) := by
  constructor
  · intro user e; rfl
  · intro user s
    cases s with
    | error e => exact Or.inl rfl
    | ok w => exact Or.inr rfl

/-- C6: the widening pass never raises the effective start above the user's
start: `wideningEarliest start resolution exprs ≤ start`
for every expression list; and for the empty expression list the earliest
equals the user's start and the widened range snapped from it equals the
user's snapped range. -/
theorem widening_never_increases_start :
    (∀ (start resolution : Int) (exprs : List Expression),
       wideningEarliest start resolution exprs ≤ start) ∧
    (∀ (s e r : Int) (user : Timerange),
       newSnappedTimerange s e r = .ok user →
       wideningEarliest user.start user.resolution [] = user.start ∧
       widenedOrFallback user
         (newSnappedTimerange (wideningEarliest user.start user.resolution [])
           user.end_ user.resolution) = user) := by
  constructor
  · intro start resolution exprs
    exact foldl_min_le start resolution exprs start
  · intro s e r user h
    refine ⟨rfl, ?_⟩
    have hidem := newSnappedTimerange_idem s e r user h
    simp [wideningEarliest, hidem, widenedOrFallback]

/-- C6 witness: instantiated on the user range `[0, 9000]` at 1000ms. -/
theorem widening_never_increases_start_witness :
    wideningEarliest (0 : Int) 1000 [] = 0 ∧
    widenedOrFallback ⟨0, 9000, 1000⟩
      (newSnappedTimerange (wideningEarliest 0 1000 []) 9000 1000) = ⟨0, 9000, 1000⟩ :=
  widening_never_increases_start.2 0 9000 1000 ⟨0, 9000, 1000⟩ (by rfl)

/-- C7: in the Select result's description metadata, every tag key's value
list is the union of that key's values over all series of all series-list
results, naturally sorted with adjacent duplicates removed; and the
collected values `["b","a","a","c"]` yield `["a","b","c"]`. -/
theorem description_is_sorted_union :
    (∀ (values : List Value) (k : String),
       descLookup k (finalDescription values) =
         dedupAdjacent (naturalSort (collectKey values k))) ∧
    dedupAdjacent (naturalSort ["b", "a", "a", "c"]) = ["a", "b", "c"] := by
  constructor
  · intro values k
    rw [finalDescription, descLookup_map_dedup, descLookup_collectDescription]
  · decide

/-- C8: the result and error channels of the evaluation race are each
allocated with buffer capacity at least 1, so the task's single eventual
send (into an empty buffer) completes without blocking even when the caller
has already returned. -/
theorem completion_channels_buffered :
    1 ≤ resultsChannelCapacity ∧ 1 ≤ errorsChannelCapacity ∧
    sendCompletesWithoutBlocking resultsChannelCapacity 0 = true ∧
    sendCompletesWithoutBlocking errorsChannelCapacity 0 = true := by
  decide

/-- C9: when the wrapped command fails, `ProfilingCommand.Execute` returns
the same error unmodified together with the zero `Result`, whose metadata
carries no `"profile"` key. -/
theorem profiling_propagates_error_without_profile
    (r : ResultR) (e : QError) (profiles : List String) :
    profilingExecute (r, some e) profiles = (ResultR.empty, some e) ∧
    metaLookup "profile" (profilingExecute (r, some e) profiles).1.metadata = none := by
  exact ⟨rfl, rfl⟩

/-- C1: when the final range snapped at the backend-chosen resolution has
more slots than the effective slot limit, `Execute` fails with a LimitError
carrying the attempted slot count and the limit; and whenever it succeeds,
the chosen range's slot count is at most the effective slot limit. -/
theorem select_slot_limit_enforced :
    (∀ (cmd : SelectCommand) (context : ExecutionContext) (run : EvalBehavior)
       (user ctr : Timerange) (cres : Int),
       newSnappedTimerange cmd.Context.Start cmd.Context.End cmd.Context.Resolution = .ok user →
       effectiveSlotLimit context.SlotLimit - 2 ≠ 0 →
       context.chooseResolution
           (widenedOrFallback user
             (newSnappedTimerange (wideningEarliest user.start user.resolution cmd.Expressions)
               user.end_ user.resolution))
           (Int.tdiv user.Duration (effectiveSlotLimit context.SlotLimit - 2)) = .ok cres →
       newSnappedTimerange user.start user.end_ (Int.tdiv cres 1000000) = .ok ctr →
       ctr.Slots > effectiveSlotLimit context.SlotLimit →
       executeSelect cmd context run =
         .error (.limit "Requested number of data points exceeds the configured limit"
           ctr.Slots (effectiveSlotLimit context.SlotLimit))) ∧
    (∀ (cmd : SelectCommand) (context : ExecutionContext) (run : EvalBehavior) (r : ResultR),
       executeSelect cmd context run = .ok r →
       ∃ (user ctr : Timerange) (cres : Int),
         newSnappedTimerange cmd.Context.Start cmd.Context.End cmd.Context.Resolution = .ok user ∧
         context.chooseResolution
             (widenedOrFallback user
               (newSnappedTimerange (wideningEarliest user.start user.resolution cmd.Expressions)
                 user.end_ user.resolution))
             (Int.tdiv user.Duration (effectiveSlotLimit context.SlotLimit - 2)) = .ok cres ∧
         newSnappedTimerange user.start user.end_ (Int.tdiv cres 1000000) = .ok ctr ∧
         ctr.Slots ≤ effectiveSlotLimit context.SlotLimit) := by
  constructor
  · intro cmd context run user ctr cres hsnap hdiv hchoose hctr hslots
    simp only [executeSelect, hsnap, goIntDiv, if_neg hdiv, hchoose, hctr, if_pos hslots]
  · intro cmd context run r h
    simp only [executeSelect] at h
    rcases h1 : newSnappedTimerange cmd.Context.Start cmd.Context.End cmd.Context.Resolution
      with e | user
    · rw [h1] at h; simp at h
    rw [h1] at h
    simp only at h
    rcases h2 : goIntDiv user.Duration (effectiveSlotLimit context.SlotLimit - 2)
      with _ | smallest
    · rw [h2] at h; simp at h
    rw [h2] at h
    simp only at h
    have hdiv : effectiveSlotLimit context.SlotLimit - 2 ≠ 0 := by
      intro h0
      rw [goIntDiv, if_pos h0] at h2
      cases h2
    have hsm : smallest = Int.tdiv user.Duration (effectiveSlotLimit context.SlotLimit - 2) := by
      rw [goIntDiv, if_neg hdiv] at h2
      exact (Option.some.inj h2).symm
    subst hsm
    rcases h3 : context.chooseResolution
        (widenedOrFallback user
          (newSnappedTimerange (wideningEarliest user.start user.resolution cmd.Expressions)
            user.end_ user.resolution))
        (Int.tdiv user.Duration (effectiveSlotLimit context.SlotLimit - 2)) with e | cres
    · rw [h3] at h; simp at h
    rw [h3] at h
    simp only at h
    rcases h4 : newSnappedTimerange user.start user.end_ (Int.tdiv cres 1000000) with e | ctr
    · rw [h4] at h; simp at h
    rw [h4] at h
    simp only at h
    by_cases h5 : ctr.Slots > effectiveSlotLimit context.SlotLimit
    · rw [if_pos h5] at h; cases h
    · exact ⟨user, ctr, cres, rfl, h3, h4, le_of_not_lt h5⟩

/-- C1 witness: with slot limit 3 and a backend choosing 1000ms the snapped
range `[0, 9000]` has 10 slots and Execute fails with LimitError(10, 3);
with slot limit 10 the same query succeeds and its chosen range stays within
the limit. -/
theorem select_slot_limit_enforced_witness :
    executeSelect cmdScenario (ctxWithLimit 3) runNoTimeout =
      .error (.limit "Requested number of data points exceeds the configured limit" 10 3) ∧
    (∃ (user ctr : Timerange) (cres : Int),
       newSnappedTimerange 0 9000 1000 = .ok user ∧
       (ctxWithLimit 10).chooseResolution
           (widenedOrFallback user
             (newSnappedTimerange (wideningEarliest user.start user.resolution [])
               user.end_ user.resolution))
           (Int.tdiv user.Duration (effectiveSlotLimit 10 - 2)) = .ok cres ∧
       newSnappedTimerange user.start user.end_ (Int.tdiv cres 1000000) = .ok ctr ∧
       ctr.Slots ≤ effectiveSlotLimit 10) :=
  ⟨select_slot_limit_enforced.1 cmdScenario (ctxWithLimit 3) runNoTimeout
      ⟨0, 9000, 1000⟩ ⟨0, 9000, 1000⟩ 1000000000
      (by rfl) (by decide) (by rfl) (by rfl) (by decide),
   select_slot_limit_enforced.2 cmdScenario (ctxWithLimit 10) runNoTimeout _ (by rfl)⟩

/-- C2: with a configured non-zero timeout, when the `ctx.Done()` branch of
the race wins (the evaluation did not complete before the timeout fired),
`Execute` returns a LimitError describing the configured timeout, whatever
the orphaned evaluation would eventually have produced. -/
theorem select_timeout_returns_limit_error
    (cmd : SelectCommand) (context : ExecutionContext)
    (evalOutcome : Except QError (List Value)) (notes : List String)
    (user ctr : Timerange) (cres : Int)
    (_htimeout : context.Timeout ≠ 0)
    (hsnap : newSnappedTimerange cmd.Context.Start cmd.Context.End cmd.Context.Resolution = .ok user)
    (hdiv : effectiveSlotLimit context.SlotLimit - 2 ≠ 0)
    (hchoose : context.chooseResolution
        (widenedOrFallback user
          (newSnappedTimerange (wideningEarliest user.start user.resolution cmd.Expressions)
            user.end_ user.resolution))
        (Int.tdiv user.Duration (effectiveSlotLimit context.SlotLimit - 2)) = .ok cres)
    (hctr : newSnappedTimerange user.start user.end_ (Int.tdiv cres 1000000) = .ok ctr)
    (hslots : ¬ ctr.Slots > effectiveSlotLimit context.SlotLimit) :
    executeSelect cmd context ⟨true, evalOutcome, notes⟩ =
      .error (.limit "Timeout while executing the query." context.Timeout context.Timeout) := by
  simp only [executeSelect, hsnap, goIntDiv, if_neg hdiv, hchoose, hctr, if_neg hslots]
  simp

/-- An execution context with a 50ms timeout, slot limit 10, and a backend
choosing 2000ms. -/
def ctxTimeout : ExecutionContext := ⟨fun _ _ => .ok 2000000000, 50000000, 10⟩

/-- An evaluation value the orphaned task would have produced. -/
def orphanValue : Value := ⟨some ⟨[⟨[("host", "a")]⟩]⟩, none⟩

/-- C2 witness: the 50ms-timeout scenario, with the orphaned evaluation
producing a series list that is discarded. -/
theorem select_timeout_returns_limit_error_witness :
    executeSelect cmdScenario ctxTimeout ⟨true, .ok [orphanValue], []⟩ =
      .error (.limit "Timeout while executing the query." 50000000 50000000) :=
  select_timeout_returns_limit_error cmdScenario ctxTimeout (.ok [orphanValue]) []
    ⟨0, 9000, 1000⟩ ⟨0, 8000, 2000⟩ 2000000000
    (by decide) (by rfl) (by decide) (by rfl) (by rfl) (by decide)

/-- C10: with `SlotLimit = 2` (kept as-is, since only 0 triggers the
default) and a successfully snapping user range, `smallestResolution`'s
divisor `slotLimit - 2` is zero and `Execute` aborts with the
division-by-zero panic instead of a result or an error. -/
theorem slot_limit_two_division_panic
    (cmd : SelectCommand) (context : ExecutionContext) (run : EvalBehavior) (user : Timerange)
    (hlimit : context.SlotLimit = 2)
    (hsnap : newSnappedTimerange cmd.Context.Start cmd.Context.End cmd.Context.Resolution = .ok user) :
    executeSelect cmd context run = .panic "runtime error: integer divide by zero" := by
  simp [executeSelect, hsnap, effectiveSlotLimit, hlimit, goIntDiv]

/-- C10 witness: the `[0, 9000]`@1000ms query with `SlotLimit = 2`
panics. -/
theorem slot_limit_two_division_panic_witness :
    executeSelect cmdScenario (ctxWithLimit 2) runNoTimeout =
      .panic "runtime error: integer divide by zero" :=
  slot_limit_two_division_panic cmdScenario (ctxWithLimit 2) runNoTimeout
    ⟨0, 9000, 1000⟩ rfl (by rfl)

/-- C4 counterexample: `SlotLimit = -3` (unset per the claim's reading) is
not replaced by the default 1000: the 10-slot query fails with
LimitError(10, -3), and behaves differently from `SlotLimit = 1000`. -/
theorem slot_limit_negative_not_defaulted :
    executeSelect cmdScenario (ctxWithLimit (-3)) runNoTimeout =
      .error (.limit "Requested number of data points exceeds the configured limit" 10 (-3)) ∧
    executeSelect cmdScenario (ctxWithLimit 1000) runNoTimeout ≠
      executeSelect cmdScenario (ctxWithLimit (-3)) runNoTimeout := by
  exact ⟨by rfl, by decide⟩

/-- C4 amended: the default slot limit 1000 is substituted exactly when
`SlotLimit` equals 0 — `Execute` then behaves as with `SlotLimit = 1000` in
both the `smallestResolution` computation and the final check — while any
non-zero value, negative ones included, is used as-is. -/
theorem slot_limit_defaults_only_at_zero :
    (∀ (cmd : SelectCommand) (context : ExecutionContext) (run : EvalBehavior),
       executeSelect cmd { context with SlotLimit := 0 } run =
         executeSelect cmd { context with SlotLimit := 1000 } run) ∧
    (∀ n : Int, n ≠ 0 → effectiveSlotLimit n = n) := by
  constructor
  · intro cmd context run
    simp [executeSelect, effectiveSlotLimit]
  · intro n hn
    simp [effectiveSlotLimit, hn]

/-- C4 amended witness: defaulting at 0 and pass-through at -3, on the
concrete scenario. -/
theorem slot_limit_defaults_only_at_zero_witness :
    executeSelect cmdScenario { ctxWithLimit 5 with SlotLimit := 0 } runNoTimeout =
      executeSelect cmdScenario { ctxWithLimit 5 with SlotLimit := 1000 } runNoTimeout ∧
    effectiveSlotLimit (-3) = -3 :=
  ⟨slot_limit_defaults_only_at_zero.1 cmdScenario (ctxWithLimit 5) runNoTimeout,
   slot_limit_defaults_only_at_zero.2 (-3) (by decide)⟩

/-- An expression whose query text is `f(x)` and which requests no
widening. -/
def exprF : Expression := ⟨"f(x)", "f", fun s _ => s⟩

/-- A Select of `f(x)` over `[0, 9000]` ms at 1000ms resolution. -/
def cmdTypeMismatch : SelectCommand := ⟨[exprF], ⟨0, 9000, 1000⟩⟩

/-- A value that is neither a series list nor a scalar set. -/
def opaqueValue : Value := ⟨none, none⟩

/-- C5 (code bug): when an evaluated value is neither a series list nor a
scalar set, `Execute` does fail, but — because line 357 passes the uncalled
`function.StringQuery` where lines 340/350 call it — the message is not the
one carrying the offending expression's query text. -/
theorem type_mismatch_message_lacks_query_text :
    executeSelect cmdTypeMismatch (ctxWithLimit 10) ⟨false, .ok [opaqueValue], []⟩ =
      .error (.typeMismatch typeMismatchMessage) ∧
    typeMismatchMessage ≠ "query f(x) does not result in a timeseries or scalar." := by
  exact ⟨by rfl, by decide⟩

end Metrics
